import Mathlib

/-!
# Verification of the VibeCart shopping-cart aggregate and service

Shallow embedding of `src/models/Cart.js` (the cart aggregate: mongoose
schema validation, the pre-save totals hook, and the instance methods
`addItem`, `updateItemQuantity`, `removeItem`, `clearCart`) and of
`src/routes/cart.js` (the cart service: the GET /, POST /add,
PUT /update/:productId, DELETE /remove/:productId and DELETE /clear
handlers), together with proofs of the spec's claims about them.

Modelling conventions:
* product identifiers (`ObjectId`) are `Nat`;
* quantities are `Int` (JS numbers; all claims are about integers, and
  negative quantities matter for the no-lower-bound claims);
* prices are `ℚ` (JS decimal numbers);
* `save()` is modelled as: run the mongoose schema validators on every
  cart item (quantity `min: 1`, `max: 100`; price `min: 0`); on failure
  reject with the validator's message (nothing is persisted); on success
  run the `pre('save')` hook, which recomputes `totalItems` and
  `totalPrice` from the items, and return the persisted document.
  (Mongoose runs validation before user `pre('save')` hooks; either way a
  failed validation persists nothing.)
* per-user persistence is a single `Option Cart` (the store for the one
  user a request concerns); a route handler returns the HTTP-level
  outcome together with the store after the request.
-/

/-- A cart line item, from `cartItemSchema` in `src/models/Cart.js`:
`product` (ObjectId ref), `quantity` (Number, min 1, max 100),
`price` (Number, min 0). -/
structure CartItem where
  product : Nat
  quantity : Int
  price : ℚ
  deriving Repr, DecidableEq

/-- A cart document, from `cartSchema` in `src/models/Cart.js`:
`items` (array of `cartItemSchema`), `totalItems` (default 0),
`totalPrice` (default 0).  The `user` field is left implicit: the store
models a single user's cart. -/
structure Cart where
  items : List CartItem
  totalItems : Int
  totalPrice : ℚ
  deriving Repr, DecidableEq

/-- `this.items.reduce((sum, item) => sum + item.quantity, 0)` from the
`pre('save')` hook. -/
def computeTotalItems (items : List CartItem) : Int :=
  items.foldl (fun sum item => sum + item.quantity) 0

/-- `this.items.reduce((sum, item) => sum + (item.price * item.quantity), 0)`
from the `pre('save')` hook. -/
def computeTotalPrice (items : List CartItem) : ℚ :=
  items.foldl (fun sum item => sum + item.price * (item.quantity : ℚ)) 0

/-- The mongoose validators of `cartItemSchema`: quantity
`min: [1, 'Quantity must be at least 1']`,
`max: [100, 'Quantity cannot exceed 100']`, price
`min: [0, 'Price cannot be negative']`.  Returns the message of the first
failing validator, or `none` when the item is valid. -/
def validateItem (it : CartItem) : Option String :=
  if it.quantity < 1 then some "Quantity must be at least 1"
  else if it.quantity > 100 then some "Quantity cannot exceed 100"
  else if it.price < 0 then some "Price cannot be negative"
  else none

/-- An item passes all `cartItemSchema` validators. -/
def validItem (it : CartItem) : Prop :=
  1 ≤ it.quantity ∧ it.quantity ≤ 100 ∧ 0 ≤ it.price

instance (it : CartItem) : Decidable (validItem it) := by
  unfold validItem; infer_instance

/-- `document.save()`: mongoose validates every subdocument of `items`
(rejecting with the first failing validator's message), then the
`pre('save')` hook recomputes `totalItems` and `totalPrice` from `items`,
and the document is persisted. -/
def save (c : Cart) : Except String Cart :=
  match c.items.findSome? validateItem with
  | some msg => .error msg
  | none => .ok { c with totalItems := computeTotalItems c.items
                       , totalPrice := computeTotalPrice c.items }

/-- JS `Array.prototype.find` returns a live reference into the array and
the methods mutate that (first matching) element in place: `updateFirst
items p f` rewrites the first item whose `product` is `p` with `f`. -/
def updateFirst (items : List CartItem) (p : Nat) (f : CartItem → CartItem) :
    List CartItem :=
  match items with
  | [] => []
  | it :: rest =>
      if it.product == p then f it :: rest
      else it :: updateFirst rest p f

/-- `cartSchema.methods.addItem(productId, quantity, price)`: if an item
with this `productId` exists, `existingItem.quantity += quantity`, then
`if (existingItem.quantity > 100) existingItem.quantity = 100`; otherwise
`this.items.push({ product: productId, quantity, price })`.  Then
`this.save()`. -/
def addItem (c : Cart) (productId : Nat) (quantity : Int) (price : ℚ) :
    Except String Cart :=
  match c.items.find? (fun it => it.product == productId) with
  | some _ =>
      save { c with items := updateFirst c.items productId (fun it =>
        { it with quantity :=
            if it.quantity + quantity > 100 then 100 else it.quantity + quantity }) }
  | none =>
      save { c with items :=
        c.items ++ [{ product := productId, quantity := quantity, price := price }] }

/-- `cartSchema.methods.updateItemQuantity(productId, quantity)`: if an
item with this `productId` exists, either filter it out (`quantity <= 0`)
or set its quantity to `Math.min(quantity, 100)`, then save; otherwise
`throw new Error('Item not found in cart')`. -/
def updateItemQuantity (c : Cart) (productId : Nat) (quantity : Int) :
    Except String Cart :=
  match c.items.find? (fun it => it.product == productId) with
  | some _ =>
      if quantity ≤ 0 then
        save { c with items := c.items.filter (fun it => !(it.product == productId)) }
      else
        save { c with items := updateFirst c.items productId (fun it =>
          { it with quantity := min quantity 100 }) }
  | none => .error "Item not found in cart"

/-- `cartSchema.methods.removeItem(productId)`: filter the item out and
save. -/
def removeItem (c : Cart) (productId : Nat) : Except String Cart :=
  save { c with items := c.items.filter (fun it => !(it.product == productId)) }

/-- `cartSchema.methods.clearCart()`: `this.items = []` and save. -/
def clearCart (c : Cart) : Except String Cart :=
  save { c with items := [] }

/-- A freshly constructed cart document, `new Cart({ user, items: [] })`:
empty items, schema-default totals 0. -/
def emptyCart : Cart :=
  { items := [], totalItems := 0, totalPrice := 0 }

/-- The derived-totals invariant of the spec: `totalItems` and
`totalPrice` equal the fold over the current items. -/
def totalsInvariant (c : Cart) : Prop :=
  c.totalItems = computeTotalItems c.items ∧
  c.totalPrice = computeTotalPrice c.items

instance (c : Cart) : Decidable (totalsInvariant c) := by
  unfold totalsInvariant; infer_instance

/-- No two items of the list share a `productId`. -/
def uniqueProducts (items : List CartItem) : Prop :=
  (items.map (fun it => it.product)).Nodup

instance (items : List CartItem) : Decidable (uniqueProducts items) := by
  unfold uniqueProducts; infer_instance

/-- One aggregate operation (each ends in `save`). -/
inductive CartOp where
  | add (productId : Nat) (quantity : Int) (price : ℚ)
  | update (productId : Nat) (quantity : Int)
  | remove (productId : Nat)
  | clear
  deriving Repr

/-- Run one aggregate operation against a cart document. -/
def applyOp (c : Cart) (op : CartOp) : Except String Cart :=
  match op with
  | .add p q pr => addItem c p q pr
  | .update p q => updateItemQuantity c p q
  | .remove p => removeItem c p
  | .clear => clearCart c

/-- Persisted state after one aggregate operation: a failed `save` (or a
thrown `Item not found in cart`) persists nothing, so the persisted state
advances only on success. -/
def stepCart (c : Cart) (op : CartOp) : Cart :=
  match applyOp c op with
  | .ok c2 => c2
  | .error _ => c

/-- Persisted state after running a sequence of aggregate operations. -/
def runOps (c : Cart) (ops : List CartOp) : Cart :=
  ops.foldl stepCart c

/-- A catalog product as the cart routes consume it: `product.price` and
`product.stock` from `src/models/Product.js` (stock has schema
`min: 0`). -/
structure Product where
  price : ℚ
  stock : Int
  deriving Repr, DecidableEq

/-- Catalog lookup, `Product.findById`. -/
def Catalog : Type := Nat → Option Product

/-- `GET /api/cart` (`src/routes/cart.js`): fetch the user's cart; if
none exists, `Cart.create({ user, items: [] })` persists a new empty one
(its save recomputes totals over no items, so they stay 0).  Returns the
response cart and the store afterwards. -/
def getCart (store : Option Cart) : Cart × Option Cart :=
  match store with
  | some c => (c, some c)
  | none => (emptyCart, some emptyCart)

/-- `POST /api/cart/add` (`src/routes/cart.js`): 400 if `productId` is
missing; 404 if `Product.findById` finds nothing; 400 if
`product.stock < quantity`; otherwise find or create the cart and
delegate to `cart.addItem(productId, quantity, product.price)` (a thrown
error is caught and surfaced, persisting nothing).  `quantity` defaults
to 1 at the destructuring, so it is always present here. -/
def postAdd (catalog : Catalog) (store : Option Cart)
    (productId : Option Nat) (quantity : Int) :
    Except String Cart × Option Cart :=
  match productId with
  | none => (.error "Product ID is required", store)
  | some pid =>
    match catalog pid with
    | none => (.error "Product not found", store)
    | some product =>
      if product.stock < quantity then
        (.error ("Only " ++ toString product.stock ++ " items available in stock"),
         store)
      else
        let cart := match store with
          | some c => c
          | none => emptyCart
        match addItem cart pid quantity product.price with
        | .ok c => (.ok c, some c)
        | .error e => (.error e, store)

/-- `PUT /api/cart/update/:productId` (`src/routes/cart.js`): 400 if
`quantity` is `undefined` or `< 0`; 404 if the product does not exist;
400 if `quantity > product.stock`; 404 if the user has no cart;
otherwise delegate to `cart.updateItemQuantity` (a thrown error is
caught and surfaced, persisting nothing). -/
def putUpdate (catalog : Catalog) (store : Option Cart)
    (productId : Nat) (quantity : Option Int) :
    Except String Cart × Option Cart :=
  match quantity with
  | none => (.error "Valid quantity is required", store)
  | some q =>
    if q < 0 then (.error "Valid quantity is required", store)
    else
      match catalog productId with
      | none => (.error "Product not found", store)
      | some product =>
        if q > product.stock then
          (.error ("Only " ++ toString product.stock ++ " items available in stock"),
           store)
        else
          match store with
          | none => (.error "Cart not found", store)
          | some cart =>
            match updateItemQuantity cart productId q with
            | .ok c => (.ok c, some c)
            | .error e => (.error e, store)

/-- `DELETE /api/cart/remove/:productId` (`src/routes/cart.js`): 404 if
the user has no cart; otherwise delegate to `cart.removeItem`. -/
def deleteRemove (store : Option Cart) (productId : Nat) :
    Except String Cart × Option Cart :=
  match store with
  | none => (.error "Cart not found", store)
  | some cart =>
    match removeItem cart productId with
    | .ok c => (.ok c, some c)
    | .error e => (.error e, store)

/-- `DELETE /api/cart/clear` (`src/routes/cart.js`): 404 if the user has
no cart; otherwise delegate to `cart.clearCart`. -/
def deleteClear (store : Option Cart) :
    Except String Cart × Option Cart :=
  match store with
  | none => (.error "Cart not found", store)
  | some cart =>
    match clearCart cart with
    | .ok c => (.ok c, some c)
    | .error e => (.error e, store)

/-- Concrete fixture: a persisted cart holding 4 units of product 1 at
snapshot price 3 (its totals satisfy the pre-save fold). -/
def cartA : Cart :=
  { items := [{ product := 1, quantity := 4, price := 3 }]
  , totalItems := 4, totalPrice := 12 }

/-- Concrete fixture: a catalog in which product 1 costs 3 and has
stock 10. -/
def catalogA : Catalog :=
  fun p => if p == 1 then some { price := 3, stock := 10 } else none

/-- Concrete fixture: a catalog in which product 2 costs 3 and has
stock 2, and no other product exists. -/
def catalogB : Catalog :=
  fun p => if p == 2 then some { price := 3, stock := 2 } else none

/-! ## Helper lemmas -/

lemma validateItem_eq_none {it : CartItem} (h : validItem it) :
    validateItem it = none := by
  obtain ⟨h1, h2, h3⟩ := h
  unfold validateItem
  rw [if_neg (by omega), if_neg (by omega), if_neg (not_lt.mpr h3)]

lemma findSome?_validate_eq_none {items : List CartItem}
    (h : ∀ it ∈ items, validItem it) :
    items.findSome? validateItem = none :=
  List.findSome?_eq_none_iff.mpr (fun it hmem => validateItem_eq_none (h it hmem))

lemma save_of_valid {its : List CartItem} {a : Int} {b : ℚ}
    (h : ∀ it ∈ its, validItem it) :
    save ⟨its, a, b⟩ = .ok ⟨its, computeTotalItems its, computeTotalPrice its⟩ := by
  unfold save
  rw [findSome?_validate_eq_none h]

lemma save_ok_shape {its : List CartItem} {a : Int} {b : ℚ} {c' : Cart}
    (h : save ⟨its, a, b⟩ = .ok c') :
    c' = ⟨its, computeTotalItems its, computeTotalPrice its⟩ := by
  unfold save at h
  cases hf : List.findSome? validateItem its with
  | some msg => rw [hf] at h; simp at h
  | none =>
      rw [hf] at h
      simp only [Except.ok.injEq] at h
      exact h.symm

lemma totalsInvariant_computed (its : List CartItem) :
    totalsInvariant ⟨its, computeTotalItems its, computeTotalPrice its⟩ :=
  ⟨rfl, rfl⟩

lemma find?_of_decomp {p : Nat} {it0 : CartItem} (pre post : List CartItem)
    (hpre : ∀ x ∈ pre, (x.product == p) = false)
    (hit0 : (it0.product == p) = true) :
    (pre ++ it0 :: post).find? (fun it => it.product == p) = some it0 := by
  induction pre with
  | nil => simp [List.find?_cons, hit0]
  | cons a t ih =>
      have ha := hpre a (List.mem_cons_self _ _)
      simp only [List.cons_append, List.find?_cons, ha]
      exact ih (fun x hx => hpre x (List.mem_cons_of_mem _ hx))

lemma updateFirst_decomp {p : Nat} {it0 : CartItem} (pre post : List CartItem)
    (hpre : ∀ x ∈ pre, (x.product == p) = false)
    (hit0 : (it0.product == p) = true) (f : CartItem → CartItem) :
    updateFirst (pre ++ it0 :: post) p f = pre ++ f it0 :: post := by
  induction pre with
  | nil => simp [updateFirst, hit0]
  | cons a t ih =>
      have ha := hpre a (List.mem_cons_self _ _)
      simp only [List.cons_append, updateFirst, ha, Bool.false_eq_true,
        if_false, List.cons.injEq, true_and]
      exact ih (fun x hx => hpre x (List.mem_cons_of_mem _ hx))

lemma findSome?_append (l1 l2 : List CartItem) :
    (l1 ++ l2).findSome? validateItem =
      (l1.findSome? validateItem).orElse (fun _ => l2.findSome? validateItem) := by
  induction l1 with
  | nil => rfl
  | cons a t ih =>
      simp only [List.cons_append, List.findSome?_cons]
      cases validateItem a <;> simp [ih, Option.orElse]

lemma clamp_eq_min (q : Int) : (if q > 100 then 100 else q) = min q 100 := by
  rcases le_or_lt q 100 with h | h
  · rw [if_neg (not_lt.mpr h), min_eq_left h]
  · rw [if_pos h, min_eq_right h.le]

lemma addItem_merge {p : Nat} {q : Int} {pr0 : ℚ} {pre post : List CartItem}
    (cart : Cart) (n : Int) (pr : ℚ)
    (hsplit : cart.items = pre ++ ⟨p, q, pr0⟩ :: post)
    (hpre : ∀ x ∈ pre, (x.product == p) = false)
    (hvalid : ∀ it ∈ cart.items, validItem it)
    (hq : 1 ≤ q + n) :
    addItem cart p n pr =
      .ok ⟨pre ++ ⟨p, min (q + n) 100, pr0⟩ :: post,
           computeTotalItems (pre ++ ⟨p, min (q + n) 100, pr0⟩ :: post),
           computeTotalPrice (pre ++ ⟨p, min (q + n) 100, pr0⟩ :: post)⟩ := by
  have hit0 : (((⟨p, q, pr0⟩ : CartItem)).product == p) = true := by simp
  have hfind : cart.items.find? (fun it => it.product == p) = some ⟨p, q, pr0⟩ := by
    rw [hsplit]; exact find?_of_decomp pre post hpre hit0
  have hmem0 : (⟨p, q, pr0⟩ : CartItem) ∈ cart.items := by
    rw [hsplit]; exact List.mem_append_right _ (List.mem_cons_self _ _)
  have hpr0 : 0 ≤ pr0 := (hvalid _ hmem0).2.2
  have hitems : updateFirst cart.items p (fun it =>
      { it with quantity :=
          if it.quantity + n > 100 then 100 else it.quantity + n }) =
      pre ++ (⟨p, min (q + n) 100, pr0⟩ : CartItem) :: post := by
    rw [hsplit, updateFirst_decomp pre post hpre hit0]
    simp only [clamp_eq_min]
  have hvalid2 : ∀ it ∈ pre ++ (⟨p, min (q + n) 100, pr0⟩ : CartItem) :: post,
      validItem it := by
    intro it hit
    rcases List.mem_append.mp hit with hit | hit
    · exact hvalid it (by rw [hsplit]; exact List.mem_append_left _ hit)
    · rcases List.mem_cons.mp hit with rfl | hit
      · exact ⟨le_min hq (by omega), min_le_right _ _, hpr0⟩
      · exact hvalid it (by
          rw [hsplit]
          exact List.mem_append_right _ (List.mem_cons_of_mem _ hit))
  unfold addItem
  rw [hfind]
  show save { cart with items := updateFirst cart.items p (fun it =>
      { it with quantity :=
          if it.quantity + n > 100 then 100 else it.quantity + n }) } = _
  rw [hitems]
  exact save_of_valid hvalid2

lemma applyOp_ok_inv {c : Cart} {op : CartOp} {c' : Cart}
    (h : applyOp c op = .ok c') : totalsInvariant c' := by
  cases op with
  | add p q pr =>
      simp only [applyOp] at h
      unfold addItem at h
      cases hf : c.items.find? (fun it => it.product == p) with
      | some it0 =>
          rw [hf] at h
          rw [save_ok_shape h]
          exact totalsInvariant_computed _
      | none =>
          rw [hf] at h
          rw [save_ok_shape h]
          exact totalsInvariant_computed _
  | update p q =>
      simp only [applyOp] at h
      unfold updateItemQuantity at h
      cases hf : c.items.find? (fun it => it.product == p) with
      | some it0 =>
          rw [hf] at h
          by_cases hq : q ≤ 0
          · rw [if_pos hq] at h
            rw [save_ok_shape h]
            exact totalsInvariant_computed _
          · rw [if_neg hq] at h
            rw [save_ok_shape h]
            exact totalsInvariant_computed _
      | none =>
          rw [hf] at h
          simp at h
  | remove p =>
      simp only [applyOp] at h
      unfold removeItem at h
      rw [save_ok_shape h]
      exact totalsInvariant_computed _
  | clear =>
      simp only [applyOp] at h
      unfold clearCart at h
      rw [save_ok_shape h]
      exact totalsInvariant_computed _

lemma stepCart_inv {c : Cart} (op : CartOp) (h : totalsInvariant c) :
    totalsInvariant (stepCart c op) := by
  unfold stepCart
  cases happ : applyOp c op with
  | ok c2 => exact applyOp_ok_inv happ
  | error e => exact h

lemma runOps_inv {c0 : Cart} (h0 : totalsInvariant c0) (ops : List CartOp) :
    totalsInvariant (runOps c0 ops) := by
  induction ops generalizing c0 with
  | nil => exact h0
  | cons op rest ih => exact ih (stepCart_inv op h0)

lemma updateFirst_map_product (items : List CartItem) (p : Nat)
    (f : CartItem → CartItem) (hf : ∀ it, (f it).product = it.product) :
    (updateFirst items p f).map (fun it => it.product) =
      items.map (fun it => it.product) := by
  induction items with
  | nil => rfl
  | cons a t ih =>
      by_cases h : (a.product == p) = true
      · simp [updateFirst, h, hf]
      · simp [updateFirst, h, ih]

lemma updateFirst_length (items : List CartItem) (p : Nat)
    (f : CartItem → CartItem) :
    (updateFirst items p f).length = items.length := by
  induction items with
  | nil => rfl
  | cons a t ih =>
      by_cases h : (a.product == p) = true
      · simp [updateFirst, h]
      · simp [updateFirst, h, ih]

lemma updateFirst_quantity_map_product (items : List CartItem) (p : Nat)
    (g : CartItem → Int) :
    (updateFirst items p (fun it => { it with quantity := g it })).map
        (fun it => it.product) =
      items.map (fun it => it.product) :=
  updateFirst_map_product _ _ _ (fun _ => rfl)

lemma filter_uniqueProducts (items : List CartItem) (g : CartItem → Bool)
    (hu : uniqueProducts items) : uniqueProducts (items.filter g) :=
  hu.sublist ((List.filter_sublist items).map _)

lemma append_fresh_uniqueProducts {items : List CartItem} {p : Nat}
    (hu : uniqueProducts items)
    (hf : items.find? (fun it => it.product == p) = none)
    (q : Int) (pr : ℚ) :
    uniqueProducts (items ++ [⟨p, q, pr⟩]) := by
  have hnot : p ∉ items.map (fun it => it.product) := by
    intro hmem
    obtain ⟨x, hx, hxe⟩ := List.mem_map.mp hmem
    have hne := List.find?_eq_none.mp hf x hx
    simp only [Bool.not_eq_true, beq_eq_false_iff_ne] at hne
    exact hne hxe
  unfold uniqueProducts
  rw [List.map_append, List.nodup_append]
  refine ⟨hu, by simp, ?_⟩
  intro b hb hbmem
  simp only [List.map_cons, List.map_nil, List.mem_singleton] at hbmem
  subst hbmem
  exact hnot hb

lemma applyOp_ok_unique {c : Cart} {op : CartOp} {c' : Cart}
    (hu : uniqueProducts c.items) (h : applyOp c op = .ok c') :
    uniqueProducts c'.items := by
  cases op with
  | add p q pr =>
      simp only [applyOp] at h
      unfold addItem at h
      cases hf : c.items.find? (fun it => it.product == p) with
      | some it0 =>
          rw [hf] at h
          rw [save_ok_shape h]
          show uniqueProducts (updateFirst c.items p _)
          unfold uniqueProducts
          rw [updateFirst_quantity_map_product]
          exact hu
      | none =>
          rw [hf] at h
          rw [save_ok_shape h]
          exact append_fresh_uniqueProducts hu hf q pr
  | update p q =>
      simp only [applyOp] at h
      unfold updateItemQuantity at h
      cases hf : c.items.find? (fun it => it.product == p) with
      | some it0 =>
          rw [hf] at h
          by_cases hq : q ≤ 0
          · rw [if_pos hq] at h
            rw [save_ok_shape h]
            exact filter_uniqueProducts _ _ hu
          · rw [if_neg hq] at h
            rw [save_ok_shape h]
            show uniqueProducts (updateFirst c.items p _)
            unfold uniqueProducts
            rw [updateFirst_quantity_map_product]
            exact hu
      | none =>
          rw [hf] at h
          simp at h
  | remove p =>
      simp only [applyOp] at h
      unfold removeItem at h
      rw [save_ok_shape h]
      exact filter_uniqueProducts _ _ hu
  | clear =>
      simp only [applyOp] at h
      unfold clearCart at h
      rw [save_ok_shape h]
      exact List.nodup_nil

lemma stepCart_unique {c : Cart} (op : CartOp) (h : uniqueProducts c.items) :
    uniqueProducts (stepCart c op).items := by
  unfold stepCart
  cases happ : applyOp c op with
  | ok c2 => exact applyOp_ok_unique h happ
  | error e => exact h

lemma runOps_unique {c0 : Cart} (h0 : uniqueProducts c0.items)
    (ops : List CartOp) : uniqueProducts (runOps c0 ops).items := by
  induction ops generalizing c0 with
  | nil => exact h0
  | cons op rest ih => exact ih (stepCart_unique op h0)

lemma updateItemQuantity_set {p : Nat} {q0 : Int} {pr0 : ℚ}
    {pre post : List CartItem} (cart : Cart) (q : Int)
    (hsplit : cart.items = pre ++ ⟨p, q0, pr0⟩ :: post)
    (hpre : ∀ x ∈ pre, (x.product == p) = false)
    (hvalid : ∀ it ∈ cart.items, validItem it)
    (hq : 0 < q) :
    updateItemQuantity cart p q =
      .ok ⟨pre ++ ⟨p, min q 100, pr0⟩ :: post,
           computeTotalItems (pre ++ ⟨p, min q 100, pr0⟩ :: post),
           computeTotalPrice (pre ++ ⟨p, min q 100, pr0⟩ :: post)⟩ := by
  have hit0 : (((⟨p, q0, pr0⟩ : CartItem)).product == p) = true := by simp
  have hfind : cart.items.find? (fun it => it.product == p) = some ⟨p, q0, pr0⟩ := by
    rw [hsplit]; exact find?_of_decomp pre post hpre hit0
  have hmem0 : (⟨p, q0, pr0⟩ : CartItem) ∈ cart.items := by
    rw [hsplit]; exact List.mem_append_right _ (List.mem_cons_self _ _)
  have hpr0 : 0 ≤ pr0 := (hvalid _ hmem0).2.2
  have hvalid2 : ∀ it ∈ pre ++ (⟨p, min q 100, pr0⟩ : CartItem) :: post,
      validItem it := by
    intro it hit
    rcases List.mem_append.mp hit with hit | hit
    · exact hvalid it (by rw [hsplit]; exact List.mem_append_left _ hit)
    · rcases List.mem_cons.mp hit with rfl | hit
      · exact ⟨le_min (by omega) (by omega), min_le_right _ _, hpr0⟩
      · exact hvalid it (by
          rw [hsplit]
          exact List.mem_append_right _ (List.mem_cons_of_mem _ hit))
  unfold updateItemQuantity
  rw [hfind, if_neg (not_le.mpr hq)]
  show save { cart with items := updateFirst cart.items p (fun it =>
      { it with quantity := min q 100 }) } = _
  rw [hsplit, updateFirst_decomp pre post hpre hit0]
  exact save_of_valid hvalid2

/-! ## Claim theorems -/

/-- Claim C1: for every cart reachable by any sequence of the operations
addItem, updateItemQuantity, removeItem, clearCart (each of which ends in
a save), the persisted state satisfies totalItems = sum of item.quantity
and totalPrice = sum of item.quantity * item.price over the items; in
particular a cart with zero items has totalItems = 0 and
totalPrice = 0. -/
theorem reachable_cart_totals_invariant (c0 : Cart)
    (h0 : totalsInvariant c0) (ops : List CartOp) :
    totalsInvariant (runOps c0 ops) ∧
    ((runOps c0 ops).items = [] →
      (runOps c0 ops).totalItems = 0 ∧ (runOps c0 ops).totalPrice = 0) := by
  have h := runOps_inv h0 ops
  refine ⟨h, fun hempty => ⟨?_, ?_⟩⟩
  · rw [h.1, hempty]; rfl
  · rw [h.2, hempty]; rfl

/-- Witness for C1: starting from the freshly created empty cart, the
sequence add(1,2,3); update(1,5); add(2,200,1); remove(1); clear keeps
the totals invariant, and the resulting empty cart has zero totals. -/
theorem reachable_cart_totals_invariant_witness :
    totalsInvariant
      (runOps emptyCart
        [CartOp.add 1 2 3, CartOp.update 1 5, CartOp.add 2 200 1,
         CartOp.remove 1, CartOp.clear]) ∧
    ((runOps emptyCart
        [CartOp.add 1 2 3, CartOp.update 1 5, CartOp.add 2 200 1,
         CartOp.remove 1, CartOp.clear]).items = [] →
      (runOps emptyCart
        [CartOp.add 1 2 3, CartOp.update 1 5, CartOp.add 2 200 1,
         CartOp.remove 1, CartOp.clear]).totalItems = 0 ∧
      (runOps emptyCart
        [CartOp.add 1 2 3, CartOp.update 1 5, CartOp.add 2 200 1,
         CartOp.remove 1, CartOp.clear]).totalPrice = 0) :=
  reachable_cart_totals_invariant emptyCart ⟨rfl, rfl⟩ _

/-- Claim C2: starting from a cart whose items list has at most one item
per productId, every sequence of the aggregate operations preserves
this (no reachable cart contains two items with the same productId), and
when addItem finds an existing item for the productId it merges in place
rather than appending: the items list keeps its length. -/
theorem reachable_cart_unique_products (c0 : Cart)
    (h0 : uniqueProducts c0.items) (ops : List CartOp)
    (c c' : Cart) (p : Nat) (n : Int) (pr : ℚ) (it0 : CartItem) :
    uniqueProducts (runOps c0 ops).items ∧
    (c.items.find? (fun it => it.product == p) = some it0 →
      addItem c p n pr = .ok c' →
      c'.items.length = c.items.length) := by
  refine ⟨runOps_unique h0 ops, fun hfind h => ?_⟩
  unfold addItem at h
  rw [hfind] at h
  rw [save_ok_shape h]
  show (updateFirst c.items p _).length = _
  exact updateFirst_length _ _ _

/-- Witness for C2: the run add(1,2,3); add(2,1,5); add(1,3,9) keeps
productIds unique, and the merging add on cartA keeps one item. -/
theorem reachable_cart_unique_products_witness :
    uniqueProducts
      (runOps emptyCart
        [CartOp.add 1 2 3, CartOp.add 2 1 5, CartOp.add 1 3 9]).items ∧
    (cartA.items.find? (fun it => it.product == 1) = some ⟨1, 4, 3⟩ →
      addItem cartA 1 3 9 = .ok ⟨[⟨1, 7, 3⟩], 7, 21⟩ →
      (⟨[⟨1, 7, 3⟩], 7, 21⟩ : Cart).items.length = cartA.items.length) :=
  reachable_cart_unique_products emptyCart (by decide) _ cartA _ 1 3 9 _

/-- Counterexample for C3: addItem(p, 150, price) on an empty cart does
NOT succeed with quantity 100; the pushed item fails the schema's
quantity max validator and the save is rejected. -/
theorem add_150_to_empty_cart_errors :
    addItem emptyCart 1 150 5 = .error "Quantity cannot exceed 100" := by
  rfl

/-- Amended C3: for a productId not yet in the cart, addItem with any
quantity above 100 pushes the item unclamped, so the save fails schema
validation with "Quantity cannot exceed 100" (nothing is persisted);
clamping at 100 happens only on the merge path for an existing item. -/
theorem add_over_100_fresh_product_fails (c : Cart) (p : Nat) (n : Int)
    (pr : ℚ)
    (habsent : c.items.find? (fun it => it.product == p) = none)
    (hvalid : ∀ it ∈ c.items, validItem it)
    (hn : 100 < n) :
    addItem c p n pr = .error "Quantity cannot exceed 100" := by
  unfold addItem
  rw [habsent]
  show save { c with items := c.items ++ [⟨p, n, pr⟩] } = _
  unfold save
  have hval : validateItem ⟨p, n, pr⟩ = some "Quantity cannot exceed 100" := by
    show (if n < 1 then some "Quantity must be at least 1"
      else if n > 100 then some "Quantity cannot exceed 100"
      else if pr < 0 then some "Price cannot be negative"
      else none) = _
    rw [if_neg (by omega), if_pos (by omega)]
  have hfs : (c.items ++ [(⟨p, n, pr⟩ : CartItem)]).findSome? validateItem =
      some "Quantity cannot exceed 100" := by
    rw [findSome?_append, findSome?_validate_eq_none hvalid]
    simp [List.findSome?_cons, hval, Option.orElse]
  rw [hfs]

/-- Witness for amended C3: adding 101 of the absent product 1 to a
cart that holds product 2 is rejected by the quantity validator. -/
theorem add_over_100_fresh_product_fails_witness :
    addItem ⟨[⟨2, 1, 1⟩], 1, 1⟩ 1 101 7 = .error "Quantity cannot exceed 100" :=
  add_over_100_fresh_product_fails ⟨[⟨2, 1, 1⟩], 1, 1⟩ 1 101 7 rfl
    (by decide) (by decide)

/-- Counterexample for C5: at the aggregate layer, updateItemQuantity
with quantity 0 on a cart that has no such item IS an error (the method
throws before ever looking at the quantity), so update-to-zero is not an
idempotent removal. -/
theorem update_zero_absent_item_errors :
    updateItemQuantity emptyCart 1 0 = .error "Item not found in cart" := by
  rfl

/-- Amended C5: updateItemQuantity(p, q) fails with ItemNotFound whenever
no item with productId p exists, for every q (including q ≤ 0); when the
item is present, any q ≤ 0 removes it (all values of q ≤ 0, e.g. 0 and
-1, behave identically), and q > 0 sets its quantity to min(q, 100). -/
theorem update_quantity_remove_or_set (cart : Cart) (p : Nat)
    (qa qb qc qd q0 : Int) (pr0 : ℚ) (it0 : CartItem)
    (pre post : List CartItem) :
    (cart.items.find? (fun it => it.product == p) = none →
      updateItemQuantity cart p qa = .error "Item not found in cart") ∧
    (qb ≤ 0 → qc ≤ 0 →
      updateItemQuantity cart p qb = updateItemQuantity cart p qc) ∧
    (cart.items.find? (fun it => it.product == p) = some it0 →
      (∀ it ∈ cart.items, validItem it) → qb ≤ 0 →
      updateItemQuantity cart p qb =
        .ok ⟨cart.items.filter (fun it => !(it.product == p)),
             computeTotalItems (cart.items.filter (fun it => !(it.product == p))),
             computeTotalPrice (cart.items.filter (fun it => !(it.product == p)))⟩ ∧
      (∀ x ∈ cart.items.filter (fun it => !(it.product == p)),
        (x.product == p) = false)) ∧
    (cart.items = pre ++ ⟨p, q0, pr0⟩ :: post →
      (∀ x ∈ pre, (x.product == p) = false) →
      (∀ it ∈ cart.items, validItem it) → 0 < qd →
      updateItemQuantity cart p qd =
        .ok ⟨pre ++ ⟨p, min qd 100, pr0⟩ :: post,
             computeTotalItems (pre ++ ⟨p, min qd 100, pr0⟩ :: post),
             computeTotalPrice (pre ++ ⟨p, min qd 100, pr0⟩ :: post)⟩) := by
  refine ⟨?_, ?_, ?_, ?_⟩
  · intro h
    simp only [updateItemQuantity, h]
  · intro hb hc
    cases hf : cart.items.find? (fun it => it.product == p) with
    | some it1 =>
        simp only [updateItemQuantity, hf]
        rw [if_pos hb, if_pos hc]
    | none => simp only [updateItemQuantity, hf]
  · intro hfind hvalid hb
    have hvalid2 : ∀ it ∈ cart.items.filter (fun it => !(it.product == p)),
        validItem it :=
      fun it hit => hvalid it (List.mem_of_mem_filter hit)
    constructor
    · simp only [updateItemQuantity, hfind]
      rw [if_pos hb]
      show save ⟨cart.items.filter (fun it => !(it.product == p)),
        cart.totalItems, cart.totalPrice⟩ = _
      exact save_of_valid hvalid2
    · intro x hx
      have := (List.mem_filter.mp hx).2
      simpa using this
  · intro hsplit hpre hvalid hd
    exact updateItemQuantity_set cart qd hsplit hpre hvalid hd

/-- Witness for amended C5 on cartA (one item: product 1, qty 4,
price 3): updating absent product 2 errors; update(1,0) and update(1,-1)
coincide; update(1,0) removes the item; update(1,150) sets qty 100. -/
theorem update_quantity_remove_or_set_witness :
    updateItemQuantity cartA 2 5 = .error "Item not found in cart" ∧
    updateItemQuantity cartA 1 0 = updateItemQuantity cartA 1 (-1) ∧
    (updateItemQuantity cartA 1 0 =
      .ok ⟨cartA.items.filter (fun it => !(it.product == 1)),
           computeTotalItems (cartA.items.filter (fun it => !(it.product == 1))),
           computeTotalPrice (cartA.items.filter (fun it => !(it.product == 1)))⟩ ∧
      (∀ x ∈ cartA.items.filter (fun it => !(it.product == 1)),
        (x.product == 1) = false)) ∧
    updateItemQuantity cartA 1 150 =
      .ok ⟨[] ++ ⟨1, min 150 100, 3⟩ :: [],
           computeTotalItems ([] ++ ⟨1, min 150 100, 3⟩ :: []),
           computeTotalPrice ([] ++ ⟨1, min 150 100, 3⟩ :: [])⟩ :=
  ⟨(update_quantity_remove_or_set cartA 2 5 0 (-1) 150 4 3 ⟨1, 4, 3⟩ [] []).1
      (by decide),
   (update_quantity_remove_or_set cartA 1 5 0 (-1) 150 4 3 ⟨1, 4, 3⟩ [] []).2.1
      (by decide) (by decide),
   (update_quantity_remove_or_set cartA 1 5 0 (-1) 150 4 3 ⟨1, 4, 3⟩ [] []).2.2.1
      (by decide) (by decide) (by decide),
   (update_quantity_remove_or_set cartA 1 5 0 (-1) 150 4 3 ⟨1, 4, 3⟩ [] []).2.2.2
      (by decide) (by decide) (by decide) (by decide)⟩

/-- Claim C7: clearing a non-empty cart empties the items and resets
both totals to 0 while the Cart record itself persists in the store; a
subsequent getCart returns the existing empty cart (not CartNotFound),
and getCart for a user with no cart record creates and persists a new
empty cart. -/
theorem clear_cart_record_persists (cart : Cart) (_hne : cart.items ≠ []) :
    deleteClear (some cart) =
      (.ok (⟨[], 0, 0⟩ : Cart), some (⟨[], 0, 0⟩ : Cart)) ∧
    getCart (some (⟨[], 0, 0⟩ : Cart)) =
      ((⟨[], 0, 0⟩ : Cart), some (⟨[], 0, 0⟩ : Cart)) ∧
    getCart none = (emptyCart, some emptyCart) ∧
    emptyCart.items = [] ∧ emptyCart.totalItems = 0 ∧
    emptyCart.totalPrice = 0 :=
  ⟨rfl, rfl, rfl, rfl, rfl, rfl⟩

/-- Witness for C7 at the non-empty cartA. -/
theorem clear_cart_record_persists_witness :
    deleteClear (some cartA) =
      (.ok (⟨[], 0, 0⟩ : Cart), some (⟨[], 0, 0⟩ : Cart)) ∧
    getCart (some (⟨[], 0, 0⟩ : Cart)) =
      ((⟨[], 0, 0⟩ : Cart), some (⟨[], 0, 0⟩ : Cart)) ∧
    getCart none = (emptyCart, some emptyCart) ∧
    emptyCart.items = [] ∧ emptyCart.totalItems = 0 ∧
    emptyCart.totalPrice = 0 :=
  clear_cart_record_persists cartA (by decide)

/-- Claim C8: removeItem(p) on a (persisted, hence totals-correct and
schema-valid) cart that does not contain p is a no-op, not an error:
items, totalItems and totalPrice are unchanged, and running it twice in
succession yields the same unchanged cart both times. -/
theorem remove_absent_item_idempotent (cart : Cart) (p : Nat)
    (habs : ∀ it ∈ cart.items, (it.product == p) = false)
    (hvalid : ∀ it ∈ cart.items, validItem it)
    (hinv : totalsInvariant cart) :
    removeItem cart p = .ok cart ∧
    (removeItem cart p).bind (fun c2 => removeItem c2 p) = .ok cart := by
  obtain ⟨its, ti, tp⟩ := cart
  have hfil : its.filter (fun it => !(it.product == p)) = its :=
    List.filter_eq_self.mpr (fun a ha => by simp [habs a ha])
  have h1 : removeItem ⟨its, ti, tp⟩ p = .ok ⟨its, ti, tp⟩ := by
    unfold removeItem
    show save ⟨its.filter (fun it => !(it.product == p)), ti, tp⟩ = _
    rw [hfil, save_of_valid hvalid]
    rw [show ti = computeTotalItems its from hinv.1,
        show tp = computeTotalPrice its from hinv.2]
  exact ⟨h1, by rw [h1]; exact h1⟩

/-- Witness for C8: removing the absent product 2 from cartA twice. -/
theorem remove_absent_item_idempotent_witness :
    removeItem cartA 2 = .ok cartA ∧
    (removeItem cartA 2).bind (fun c2 => removeItem c2 2) = .ok cartA :=
  remove_absent_item_idempotent cartA 2 (by decide) (by decide)
    (by constructor <;> norm_num [cartA, computeTotalItems, computeTotalPrice])

/-- Claim C9 (frame effect of a merging addItem): when addItem(p, n,
price) merges into the existing item for p, only that item's quantity
changes — the stored snapshot price stays at its original add-time value
pr0 even though the caller passes the catalog's current price, every
other item (the lists pre and post) is untouched, and the outcome does
not depend on the price argument at all. -/
theorem add_item_merge_frame (cart : Cart) (p : Nat) (q n : Int)
    (pr0 price1 price2 : ℚ) (pre post : List CartItem)
    (hsplit : cart.items = pre ++ ⟨p, q, pr0⟩ :: post)
    (hpre : ∀ x ∈ pre, (x.product == p) = false)
    (hvalid : ∀ it ∈ cart.items, validItem it)
    (hq : 1 ≤ q + n) :
    addItem cart p n price1 =
      .ok ⟨pre ++ ⟨p, min (q + n) 100, pr0⟩ :: post,
           computeTotalItems (pre ++ ⟨p, min (q + n) 100, pr0⟩ :: post),
           computeTotalPrice (pre ++ ⟨p, min (q + n) 100, pr0⟩ :: post)⟩ ∧
    addItem cart p n price1 = addItem cart p n price2 := by
  refine ⟨addItem_merge cart n price1 hsplit hpre hvalid hq, ?_⟩
  rw [addItem_merge cart n price1 hsplit hpre hvalid hq,
      addItem_merge cart n price2 hsplit hpre hvalid hq]

/-- Witness for C9: merging 3 more of product 1 into cartA with the
catalog now quoting 99 keeps the snapshot price 3, and quoting 5 instead
changes nothing. -/
theorem add_item_merge_frame_witness :
    addItem cartA 1 3 99 =
      .ok ⟨[] ++ ⟨1, min (4 + 3) 100, 3⟩ :: [],
           computeTotalItems ([] ++ ⟨1, min (4 + 3) 100, 3⟩ :: []),
           computeTotalPrice ([] ++ ⟨1, min (4 + 3) 100, 3⟩ :: [])⟩ ∧
    addItem cartA 1 3 99 = addItem cartA 1 3 5 :=
  add_item_merge_frame cartA 1 4 3 3 99 5 [] [] rfl (by decide) (by decide)
    (by decide)

/-- Claim C4: when the user's cart already holds productId pid with
quantity q, addToCart checks the catalog's stock only against the
requested increment n — the hypotheses relate stock to n alone, never to
q + n — and on success the merged item has quantity min(q + n, 100) with
recomputed totals, even when q + n exceeds the stock. -/
theorem add_to_cart_checks_increment_only (catalog : Catalog) (cart : Cart)
    (pid : Nat) (q n : Int) (pr0 : ℚ) (prod : Product)
    (pre post : List CartItem)
    (hcat : catalog pid = some prod)
    (hstock : ¬ prod.stock < n)
    (hsplit : cart.items = pre ++ ⟨pid, q, pr0⟩ :: post)
    (hpre : ∀ x ∈ pre, (x.product == pid) = false)
    (hvalid : ∀ it ∈ cart.items, validItem it)
    (hq : 1 ≤ q + n) :
    postAdd catalog (some cart) (some pid) n =
      (.ok ⟨pre ++ ⟨pid, min (q + n) 100, pr0⟩ :: post,
            computeTotalItems (pre ++ ⟨pid, min (q + n) 100, pr0⟩ :: post),
            computeTotalPrice (pre ++ ⟨pid, min (q + n) 100, pr0⟩ :: post)⟩,
       some ⟨pre ++ ⟨pid, min (q + n) 100, pr0⟩ :: post,
            computeTotalItems (pre ++ ⟨pid, min (q + n) 100, pr0⟩ :: post),
            computeTotalPrice (pre ++ ⟨pid, min (q + n) 100, pr0⟩ :: post)⟩) ∧
    totalsInvariant
      ⟨pre ++ ⟨pid, min (q + n) 100, pr0⟩ :: post,
       computeTotalItems (pre ++ ⟨pid, min (q + n) 100, pr0⟩ :: post),
       computeTotalPrice (pre ++ ⟨pid, min (q + n) 100, pr0⟩ :: post)⟩ := by
  have hok := addItem_merge cart n prod.price hsplit hpre hvalid hq
  refine ⟨?_, totalsInvariant_computed _⟩
  show (match catalog pid with
        | none => ((Except.error "Product not found" : Except String Cart),
                   some cart)
        | some product =>
          if product.stock < n then
            (.error ("Only " ++ toString product.stock ++
              " items available in stock"), some cart)
          else
            match addItem cart pid n product.price with
            | .ok c => (.ok c, some c)
            | .error e => (.error e, some cart)) = _
  rw [hcat]
  show (if prod.stock < n then
          ((Except.error ("Only " ++ toString prod.stock ++
            " items available in stock") : Except String Cart), some cart)
        else
          match addItem cart pid n prod.price with
          | .ok c => (.ok c, some c)
          | .error e => (.error e, some cart)) = _
  rw [if_neg hstock, hok]

/-- Witness for C4, Scenario B: cart with 4 of product 1, stock 10,
adding 3 passes the stock check against 3 alone and merges to quantity
min(4+3,100) = 7, with totalItems 7. -/
theorem add_to_cart_checks_increment_only_witness :
    (postAdd catalogA (some cartA) (some 1) 3 =
      (.ok ⟨[] ++ ⟨1, min (4 + 3) 100, 3⟩ :: [],
            computeTotalItems ([] ++ ⟨1, min (4 + 3) 100, 3⟩ :: []),
            computeTotalPrice ([] ++ ⟨1, min (4 + 3) 100, 3⟩ :: [])⟩,
       some ⟨[] ++ ⟨1, min (4 + 3) 100, 3⟩ :: [],
            computeTotalItems ([] ++ ⟨1, min (4 + 3) 100, 3⟩ :: []),
            computeTotalPrice ([] ++ ⟨1, min (4 + 3) 100, 3⟩ :: [])⟩) ∧
     totalsInvariant
       ⟨[] ++ ⟨1, min (4 + 3) 100, 3⟩ :: [],
        computeTotalItems ([] ++ ⟨1, min (4 + 3) 100, 3⟩ :: []),
        computeTotalPrice ([] ++ ⟨1, min (4 + 3) 100, 3⟩ :: [])⟩) ∧
    computeTotalItems ([] ++ ⟨1, min (4 + 3) 100, 3⟩ :: []) = 7 :=
  ⟨add_to_cart_checks_increment_only catalogA cartA 1 4 3 3 ⟨3, 10⟩ [] []
      rfl (by decide) rfl (by decide) (by decide) (by decide),
   by decide⟩

/-- Claim C10: POST /add performs no lower-bound validation on the
quantity: with a non-negative catalog stock, every n ≤ 0 passes the
stock check (stock < n is false), and when the cart already holds the
product with quantity q (and q + n still passes item validation) the
merge adds the negative n, decreasing the stored quantity to q + n
instead of failing with a ValidationError. -/
theorem add_to_cart_no_lower_bound (catalog : Catalog) (cart : Cart)
    (pid : Nat) (q n : Int) (pr0 : ℚ) (prod : Product)
    (pre post : List CartItem)
    (hcat : catalog pid = some prod)
    (hstocknn : 0 ≤ prod.stock)
    (hn : n ≤ 0)
    (hsplit : cart.items = pre ++ ⟨pid, q, pr0⟩ :: post)
    (hpre : ∀ x ∈ pre, (x.product == pid) = false)
    (hvalid : ∀ it ∈ cart.items, validItem it)
    (hq : 1 ≤ q + n) :
    ¬ prod.stock < n ∧
    q + n ≤ q ∧
    postAdd catalog (some cart) (some pid) n =
      (.ok ⟨pre ++ ⟨pid, q + n, pr0⟩ :: post,
            computeTotalItems (pre ++ ⟨pid, q + n, pr0⟩ :: post),
            computeTotalPrice (pre ++ ⟨pid, q + n, pr0⟩ :: post)⟩,
       some ⟨pre ++ ⟨pid, q + n, pr0⟩ :: post,
            computeTotalItems (pre ++ ⟨pid, q + n, pr0⟩ :: post),
            computeTotalPrice (pre ++ ⟨pid, q + n, pr0⟩ :: post)⟩) := by
  have hstock : ¬ prod.stock < n := by omega
  have hmem : (⟨pid, q, pr0⟩ : CartItem) ∈ cart.items := by
    rw [hsplit]; exact List.mem_append_right _ (List.mem_cons_self _ _)
  have hq100 : q ≤ 100 := (hvalid _ hmem).2.1
  have hmin : min (q + n) 100 = q + n := min_eq_left (by omega)
  have hok := addItem_merge cart n prod.price hsplit hpre hvalid hq
  rw [hmin] at hok
  refine ⟨hstock, by omega, ?_⟩
  show (match catalog pid with
        | none => ((Except.error "Product not found" : Except String Cart),
                   some cart)
        | some product =>
          if product.stock < n then
            (.error ("Only " ++ toString product.stock ++
              " items available in stock"), some cart)
          else
            match addItem cart pid n product.price with
            | .ok c => (.ok c, some c)
            | .error e => (.error e, some cart)) = _
  rw [hcat]
  show (if prod.stock < n then
          ((Except.error ("Only " ++ toString prod.stock ++
            " items available in stock") : Except String Cart), some cart)
        else
          match addItem cart pid n prod.price with
          | .ok c => (.ok c, some c)
          | .error e => (.error e, some cart)) = _
  rw [if_neg hstock, hok]

/-- Witness for C10: adding quantity -3 of product 1 (stock 10) to cartA
(which holds 4 of it) succeeds and decreases the stored quantity to 1. -/
theorem add_to_cart_no_lower_bound_witness :
    ¬ (10 : Int) < -3 ∧
    (4 : Int) + -3 ≤ 4 ∧
    postAdd catalogA (some cartA) (some 1) (-3) =
      (.ok ⟨[] ++ ⟨1, 4 + -3, 3⟩ :: [],
            computeTotalItems ([] ++ ⟨1, 4 + -3, 3⟩ :: []),
            computeTotalPrice ([] ++ ⟨1, 4 + -3, 3⟩ :: [])⟩,
       some ⟨[] ++ ⟨1, 4 + -3, 3⟩ :: [],
            computeTotalItems ([] ++ ⟨1, 4 + -3, 3⟩ :: []),
            computeTotalPrice ([] ++ ⟨1, 4 + -3, 3⟩ :: [])⟩) :=
  add_to_cart_no_lower_bound catalogA cartA 1 4 (-3) 3 ⟨3, 10⟩ [] [] rfl
    (by decide) (by decide) rfl (by decide) (by decide) (by decide)

/-- Claim C6: POST /add fails with ProductNotFound when the catalog has
no such product, and with InsufficientStock when the catalog's stock is
below the requested quantity; in both failure cases the store — the
user's persisted cart — is returned unchanged. -/
theorem add_to_cart_failure_leaves_cart (catalog : Catalog)
    (store : Option Cart) (pid pid2 : Nat) (n : Int) (prod : Product) :
    (catalog pid = none →
      postAdd catalog store (some pid) n = (.error "Product not found", store)) ∧
    (catalog pid2 = some prod → prod.stock < n →
      postAdd catalog store (some pid2) n =
        (.error ("Only " ++ toString prod.stock ++ " items available in stock"),
         store)) := by
  constructor
  · intro h
    show (match catalog pid with
          | none => ((Except.error "Product not found" : Except String Cart),
                     store)
          | some product =>
            if product.stock < n then
              (.error ("Only " ++ toString product.stock ++
                " items available in stock"), store)
            else
              match addItem (match store with | some c => c | none => emptyCart)
                  pid n product.price with
              | .ok c => (.ok c, some c)
              | .error e => (.error e, store)) = _
    rw [h]
  · intro h hlt
    show (match catalog pid2 with
          | none => ((Except.error "Product not found" : Except String Cart),
                     store)
          | some product =>
            if product.stock < n then
              (.error ("Only " ++ toString product.stock ++
                " items available in stock"), store)
            else
              match addItem (match store with | some c => c | none => emptyCart)
                  pid2 n product.price with
              | .ok c => (.ok c, some c)
              | .error e => (.error e, store)) = _
    rw [h]
    show (if prod.stock < n then
            ((Except.error ("Only " ++ toString prod.stock ++
              " items available in stock") : Except String Cart), store)
          else
            match addItem (match store with | some c => c | none => emptyCart)
                pid2 n prod.price with
            | .ok c => (.ok c, some c)
            | .error e => (.error e, store)) = _
    rw [if_pos hlt]

/-- Witness for C6, Scenario C: against catalogB (only product 2 exists,
stock 2), adding unknown product 9 fails with Product not found and
adding 5 of product 2 fails with the stock message; the store (here the
persisted cartA) is unchanged in both cases. -/
theorem add_to_cart_failure_leaves_cart_witness :
    postAdd catalogB (some cartA) (some 9) 5 =
      (.error "Product not found", some cartA) ∧
    postAdd catalogB (some cartA) (some 2) 5 =
      (.error ("Only " ++ toString (2 : Int) ++ " items available in stock"),
       some cartA) :=
  ⟨(add_to_cart_failure_leaves_cart catalogB (some cartA) 9 2 5 ⟨3, 2⟩).1 rfl,
   (add_to_cart_failure_leaves_cart catalogB (some cartA) 9 2 5 ⟨3, 2⟩).2 rfl
     (by decide)⟩
